import Mathlib

/-!
Verification development for the flight-delays inference service
(`app/app.py` plus the locust load-test script).

The service is embedded shallowly:

* JSON request bodies are association lists of field name to JSON value.
* Pydantic schema validation (`FlightInformation(BaseModel)`) is embedded as
  an `Except`-valued validator following pydantic default semantics: every
  declared field is required, fields not declared in the model are ignored,
  and an `int`-typed field accepts both a JSON number and a numeric JSON
  string (lax coercion).
* The pickled model bundle (`model_data`) is a structure holding the trained
  classifier and the seven ordered training-time category lists.
* `pd.Categorical(col, categories=cats)` is embedded by its category code:
  the index of the value inside `cats`, or `none` (pandas `NaN`) when the
  value is absent from `cats`.
* The classifier is opaque: `predict_proba` is an arbitrary function from the
  single-row aligned frame to a matrix of rationals; class probabilities are
  modelled as rationals.
-/

/-- A JSON scalar value, the only shapes the flight-record schema uses. -/
inductive JsonValue where
  | num (n : Int)
  | str (s : String)
  deriving DecidableEq, Repr

/-- A JSON object body: an association list of field name to value. -/
abbrev Payload := List (String × JsonValue)

/-- The pydantic request model `FlightInformation` from `app/app.py`:
eight required fields, typed as declared in the source. -/
structure FlightInformation where
  DIA : Int
  MES : Int
  DIANOM : String
  TIPOVUELO : String
  OPERA : String
  SIGLADES : String
  TEMPORADAALTA : Int
  PERIODODIA : String
  deriving DecidableEq, Repr

/-- The pydantic response model `PredictionOut` from `app/app.py`. -/
structure PredictionOut where
  delay_proba : ℚ
  deriving DecidableEq, Repr

/-- Look up a field of a JSON object body by name (first occurrence). -/
def lookupField (body : Payload) (k : String) : Option JsonValue :=
  (body.find? (fun p => p.1 = k)).map Prod.snd

/-- Parse a decimal string, with optional leading minus sign, into an
integer; `none` when the string is not a plain decimal integer. -/
def strToInt (s : String) : Option Int :=
  match s.data with
  | [] => none
  | List.cons c cs =>
    if c = Char.ofNat 45 then
      if cs ≠ [] ∧ cs.all Char.isDigit then
        some (-(Int.ofNat (cs.foldl (fun a c => a * 10 + c.toNat - 48) 0)))
      else none
    else if (List.cons c cs).all Char.isDigit then
      some (Int.ofNat ((List.cons c cs).foldl (fun a c => a * 10 + c.toNat - 48) 0))
    else none

/-- Pydantic lax coercion into an `int` field: a JSON number is taken as is;
a numeric JSON string is coerced to the integer it spells. -/
def coerceInt : JsonValue → Option Int
  | .num n => some n
  | .str s => strToInt s

/-- Pydantic coercion into a `str` field: only a JSON string is accepted. -/
def coerceStr : JsonValue → Option String
  | .str s => some s
  | .num _ => none

/-- Validate one declared field of a pydantic model: the field must be
present in the body and its value must coerce to the declared type. -/
def validateField {α : Type} (body : Payload) (k : String)
    (coerce : JsonValue → Option α) : Except String α :=
  match lookupField body k with
  | none => .error (k ++ ": field required")
  | some v =>
    match coerce v with
    | none => .error (k ++ ": invalid type")
    | some a => .ok a

/-- Pydantic validation of a request body against `FlightInformation`:
all eight declared fields are required; any field of the body that is not
one of the eight is ignored (pydantic default behavior). -/
def validateFlightInformation (body : Payload) : Except String FlightInformation := do
  let dia ← validateField body "DIA" coerceInt
  let mes ← validateField body "MES" coerceInt
  let dianom ← validateField body "DIANOM" coerceStr
  let tipovuelo ← validateField body "TIPOVUELO" coerceStr
  let opera ← validateField body "OPERA" coerceStr
  let siglades ← validateField body "SIGLADES" coerceStr
  let temporadaalta ← validateField body "TEMPORADAALTA" coerceInt
  let periododia ← validateField body "PERIODODIA" coerceStr
  pure { DIA := dia, MES := mes, DIANOM := dianom, TIPOVUELO := tipovuelo,
         OPERA := opera, SIGLADES := siglades, TEMPORADAALTA := temporadaalta,
         PERIODODIA := periododia }

/-- Embedding of `pd.Categorical(col, categories=cats)` applied to a single
value: the category code is the index of the value in the ordered category
list, and a value absent from the list becomes `none` (pandas missing/`NaN`). -/
def categoricalCode {α : Type} [DecidableEq α] (cats : List α) (v : α) : Option Nat :=
  cats.findIdx? (fun c => c = v)

/-- The single row of `request_df` after the seven categorical-assignment
statements of `predict` have run: the seven categorical columns hold
category codes, `TEMPORADAALTA` holds the raw integer. Field order is the
column order of `pd.DataFrame([payload.dict()])`. -/
structure AlignedRow where
  DIA : Option Nat
  MES : Option Nat
  DIANOM : Option Nat
  TIPOVUELO : Option Nat
  OPERA : Option Nat
  SIGLADES : Option Nat
  TEMPORADAALTA : Int
  PERIODODIA : Option Nat
  deriving DecidableEq, Repr

/-- The trained classifier inside the bundle, opaque to the service:
`predict_proba` maps a data frame (list of aligned rows) to a matrix of
class probabilities, one row per input row. -/
structure Classifier where
  predict_proba : List AlignedRow → List (List ℚ)

/-- The unpickled model bundle `model_data` from `app/app.py`: the trained
classifier plus the seven ordered training-time category lists. -/
structure ModelData where
  trained_model : Classifier
  dia_values : List Int
  mes_values : List Int
  dianom_values : List String
  tipovuelo_values : List String
  opera_values : List String
  siglades_values : List String
  periododia_values : List String

/-- Entry `m[i, j]` of a probability matrix (numpy indexing in
`model.predict_proba(request_df)[0, 1]`); out-of-shape access is totalized
to `0`, and every theorem that depends on the entry assumes the shape. -/
def matrixEntry (m : List (List ℚ)) (i j : Nat) : ℚ :=
  (m.getD i []).getD j 0

/-- The data-alignment prefix of `predict`: build the single-row frame from
the validated payload and re-express each of the seven categorical fields
through its stored training-time category list; `TEMPORADAALTA` is the only
field left untouched. -/
def alignRow (md : ModelData) (payload : FlightInformation) : AlignedRow :=
  { DIA := categoricalCode md.dia_values payload.DIA
    MES := categoricalCode md.mes_values payload.MES
    DIANOM := categoricalCode md.dianom_values payload.DIANOM
    TIPOVUELO := categoricalCode md.tipovuelo_values payload.TIPOVUELO
    OPERA := categoricalCode md.opera_values payload.OPERA
    SIGLADES := categoricalCode md.siglades_values payload.SIGLADES
    TEMPORADAALTA := payload.TEMPORADAALTA
    PERIODODIA := categoricalCode md.periododia_values payload.PERIODODIA }

/-- The body of the `predict` handler from `app/app.py`: align the record,
call `model.predict_proba` on the single-row frame, take entry `[0, 1]`,
and wrap it as the response. -/
def predict (md : ModelData) (payload : FlightInformation) : PredictionOut :=
  let request_df := [alignRow md payload]
  let prediction := matrixEntry (md.trained_model.predict_proba request_df) 0 1
  { delay_proba := prediction }

/-- Outcome of a `POST /predict` request: either HTTP 200 with the
prediction body, or a schema-validation client error raised before the
handler body runs. -/
inductive PredictResult where
  | success (body : PredictionOut)
  | validationError (msg : String)
  deriving DecidableEq, Repr

/-- The full `POST /predict` route: FastAPI validates the JSON body against
`FlightInformation` and only on success runs the `predict` handler. -/
def handlePredictRequest (md : ModelData) (body : Payload) : PredictResult :=
  match validateFlightInformation body with
  | .error e => .validationError e
  | .ok payload => .success (predict md payload)

/-- The response body of the `home` handler: exactly the two keys
`message` and `model_version`. -/
structure HomeResponse where
  message : String
  model_version : ℚ
  deriving DecidableEq, Repr

/-- The `home` handler from `app/app.py`. -/
def home : HomeResponse :=
  { message := "Flight Delays API", model_version := 1/10 }

/-- The full `GET /` route: FastAPI default status 200 with the handler's
returned object as body. -/
def handleHomeRequest : Nat × HomeResponse :=
  (200, home)

/-- Process-wide state of the service: the bundle loaded by `joblib.load`
at import time and the classifier extracted from it. -/
structure AppState where
  model_data : ModelData
  model : Classifier

/-- Startup: `model_data = joblib.load(...)`, `model = model_data["trained_model"]`,
run once when the process starts. -/
def initState (md : ModelData) : AppState :=
  { model_data := md, model := md.trained_model }

/-- The `POST /predict` route as a transformer of the process state: the
response is computed from the state, and the state after the request. -/
def predictRoute (st : AppState) (body : Payload) : PredictResult × AppState :=
  (handlePredictRequest st.model_data body, st)

/-- The `GET /` route as a transformer of the process state. -/
def homeRoute (st : AppState) : (Nat × HomeResponse) × AppState :=
  (handleHomeRequest, st)

/-- A matrix is a matrix of class probabilities when every entry lies in
`[0, 1]`. -/
def IsProbMatrix (m : List (List ℚ)) : Prop :=
  ∀ row ∈ m, ∀ p ∈ row, 0 ≤ p ∧ p ≤ 1

/-- The eight field names declared by `FlightInformation`, in declaration
order. -/
def requiredFieldNames : List String :=
  ["DIA", "MES", "DIANOM", "TIPOVUELO", "OPERA", "SIGLADES",
   "TEMPORADAALTA", "PERIODODIA"]

/-- A concrete classifier used to instantiate general theorems: it returns
the probability row `[0, 1]` for any input frame. -/
def constClassifier : Classifier :=
  ⟨fun _ => [[0, 1]]⟩

/-- A concrete model bundle built around `constClassifier`, whose category
lists contain the values of the load-test record. -/
def sampleBundle : ModelData :=
  { trained_model := constClassifier
    dia_values := [13, 1]
    mes_values := [9, 2]
    dianom_values := ["Miercoles", "Lunes"]
    tipovuelo_values := ["N", "I"]
    opera_values := ["Grupo LATAM", "Sky Airline"]
    siglades_values := ["Arica", "Calama"]
    periododia_values := ["noche", "tarde"] }

/-- The fixed literal request body of the locust load-test script. -/
def sampleBody : Payload :=
  [("DIA", .num 13), ("MES", .num 9), ("DIANOM", .str "Miercoles"),
   ("TIPOVUELO", .str "N"), ("OPERA", .str "Grupo LATAM"),
   ("SIGLADES", .str "Arica"), ("TEMPORADAALTA", .num 1),
   ("PERIODODIA", .str "noche")]

/-- The validated record corresponding to `sampleBody`. -/
def sampleRecord : FlightInformation :=
  { DIA := 13, MES := 9, DIANOM := "Miercoles", TIPOVUELO := "N",
    OPERA := "Grupo LATAM", SIGLADES := "Arica", TEMPORADAALTA := 1,
    PERIODODIA := "noche" }

/-- A body identical to `sampleBody` except that its `OPERA` value is absent
from `sampleBundle.opera_values`. -/
def oovBody : Payload :=
  [("DIA", .num 13), ("MES", .num 9), ("DIANOM", .str "Miercoles"),
   ("TIPOVUELO", .str "N"), ("OPERA", .str "Aerolinea Fantasma"),
   ("SIGLADES", .str "Arica"), ("TEMPORADAALTA", .num 1),
   ("PERIODODIA", .str "noche")]

/-- The validated record corresponding to `oovBody`. -/
def oovRecord : FlightInformation :=
  { DIA := 13, MES := 9, DIANOM := "Miercoles", TIPOVUELO := "N",
    OPERA := "Aerolinea Fantasma", SIGLADES := "Arica", TEMPORADAALTA := 1,
    PERIODODIA := "noche" }

theorem categoricalCode_eq_none_of_not_mem {α : Type} [DecidableEq α]
    {cats : List α} {v : α} (h : v ∉ cats) : categoricalCode cats v = none := by
  induction cats with
  | nil => rfl
  | cons c cs ih =>
    have hcv : ¬ c = v := fun hc => h (hc ▸ List.mem_cons_self c cs)
    have hrest : v ∉ cs := fun hm => h (List.mem_cons_of_mem c hm)
    simp [categoricalCode, List.findIdx?_cons, hcv] at ih ⊢
    exact ih hrest

/-- Claim C1: a validated record whose value for one or more of the seven
categorical fields is absent from the corresponding training-time category
list does not make the handler raise: each out-of-vocabulary value is
encoded as the constant unmapped representation (`none`, pandas `NaN`) and
a probability is still computed and returned. -/
theorem predict_oov_encoded_not_error (md : ModelData) (body : Payload)
    (r : FlightInformation) (hv : validateFlightInformation body = .ok r) :
    (r.DIA ∉ md.dia_values → (alignRow md r).DIA = none) ∧
    (r.MES ∉ md.mes_values → (alignRow md r).MES = none) ∧
    (r.DIANOM ∉ md.dianom_values → (alignRow md r).DIANOM = none) ∧
    (r.TIPOVUELO ∉ md.tipovuelo_values → (alignRow md r).TIPOVUELO = none) ∧
    (r.OPERA ∉ md.opera_values → (alignRow md r).OPERA = none) ∧
    (r.SIGLADES ∉ md.siglades_values → (alignRow md r).SIGLADES = none) ∧
    (r.PERIODODIA ∉ md.periododia_values → (alignRow md r).PERIODODIA = none) ∧
    handlePredictRequest md body = .success (predict md r) := by
  refine ⟨fun h => categoricalCode_eq_none_of_not_mem h,
    fun h => categoricalCode_eq_none_of_not_mem h,
    fun h => categoricalCode_eq_none_of_not_mem h,
    fun h => categoricalCode_eq_none_of_not_mem h,
    fun h => categoricalCode_eq_none_of_not_mem h,
    fun h => categoricalCode_eq_none_of_not_mem h,
    fun h => categoricalCode_eq_none_of_not_mem h, ?_⟩
  simp [handlePredictRequest, hv]

/-- Witness for C1 at a concrete out-of-vocabulary record. -/
theorem predict_oov_encoded_not_error_witness :
    (alignRow sampleBundle oovRecord).OPERA = none ∧
    handlePredictRequest sampleBundle oovBody =
      .success (predict sampleBundle oovRecord) := by
  have h := predict_oov_encoded_not_error sampleBundle oovBody oovRecord rfl
  exact ⟨h.2.2.2.2.1 (by decide), h.2.2.2.2.2.2.2⟩

/-- Claim C3: the handler restricts exactly the seven categorical fields
through the seven ordered category lists of the bundle, passes
`TEMPORADAALTA` through unchanged, and feeds the resulting single-row frame
to the classifier. -/
theorem predict_applies_seven_category_lists (md : ModelData)
    (r : FlightInformation) :
    (alignRow md r).DIA = categoricalCode md.dia_values r.DIA ∧
    (alignRow md r).MES = categoricalCode md.mes_values r.MES ∧
    (alignRow md r).DIANOM = categoricalCode md.dianom_values r.DIANOM ∧
    (alignRow md r).TIPOVUELO = categoricalCode md.tipovuelo_values r.TIPOVUELO ∧
    (alignRow md r).OPERA = categoricalCode md.opera_values r.OPERA ∧
    (alignRow md r).SIGLADES = categoricalCode md.siglades_values r.SIGLADES ∧
    (alignRow md r).TEMPORADAALTA = r.TEMPORADAALTA ∧
    (alignRow md r).PERIODODIA = categoricalCode md.periododia_values r.PERIODODIA ∧
    predict md r =
      ⟨matrixEntry (md.trained_model.predict_proba [alignRow md r]) 0 1⟩ :=
  ⟨rfl, rfl, rfl, rfl, rfl, rfl, rfl, rfl, rfl⟩

/-- Claim C4: the returned probability is exactly the entry at row 0,
column 1 of the classifier output on the single-row aligned frame. -/
theorem predict_returns_row0_col1 (md : ModelData) (r : FlightInformation)
    (row : List ℚ) (rest : List (List ℚ)) (p0 p1 : ℚ) (tail : List ℚ)
    (hm : md.trained_model.predict_proba [alignRow md r] = row :: rest)
    (hrow : row = p0 :: p1 :: tail) :
    (predict md r).delay_proba = p1 := by
  simp [predict, matrixEntry, hm, hrow]

/-- Witness for C4 at the concrete bundle whose classifier returns `[0, 1]`. -/
theorem predict_returns_row0_col1_witness :
    (predict sampleBundle sampleRecord).delay_proba = 1 :=
  predict_returns_row0_col1 sampleBundle sampleRecord [0, 1] [] 0 1 [] rfl rfl

/-- Claim C5: the predict route is deterministic: two calls with identical
bodies against the same state return identical results, and a second call
issued after a first one returns the same result as the first. -/
theorem predict_route_deterministic (st : AppState) (b1 b2 : Payload)
    (h : b1 = b2) :
    (predictRoute st b1).1 = (predictRoute st b2).1 ∧
    (predictRoute (predictRoute st b1).2 b2).1 = (predictRoute st b1).1 := by
  subst h; exact ⟨rfl, rfl⟩

/-- Witness for C5 at the load-test record and the concrete bundle. -/
theorem predict_route_deterministic_witness :
    (predictRoute (initState sampleBundle) sampleBody).1 =
      (predictRoute (initState sampleBundle) sampleBody).1 ∧
    (predictRoute (predictRoute (initState sampleBundle) sampleBody).2
        sampleBody).1 =
      (predictRoute (initState sampleBundle) sampleBody).1 :=
  predict_route_deterministic (initState sampleBundle) sampleBody sampleBody rfl

/-- Claim C8: both route handlers leave the process state, in particular
the loaded bundle `model_data` and the extracted classifier `model`,
unchanged. -/
theorem handlers_preserve_model_state (st : AppState) (body : Payload) :
    (predictRoute st body).2 = st ∧ (homeRoute st).2 = st ∧
    (predictRoute st body).2.model_data = st.model_data ∧
    (predictRoute st body).2.model = st.model ∧
    (homeRoute st).2.model_data = st.model_data ∧
    (homeRoute st).2.model = st.model :=
  ⟨rfl, rfl, rfl, rfl, rfl, rfl⟩

/-- Claim C9: the home route returns status 200 with a body of exactly the
keys `message` and `model_version`, the latter the constant `0.1`. -/
theorem home_returns_message_and_version :
    handleHomeRequest.1 = 200 ∧
    handleHomeRequest.2.message = "Flight Delays API" ∧
    handleHomeRequest.2.model_version = 1/10 :=
  ⟨rfl, rfl, rfl⟩

theorem list_getD_mem_or_default {α : Type} (l : List α) (j : Nat) (d : α) :
    l.getD j d ∈ l ∨ l.getD j d = d := by
  induction l generalizing j with
  | nil => right; rfl
  | cons a t ih =>
    cases j with
    | zero => left; simp
    | succ n =>
      rcases ih n with h | h
      · left
        rw [List.getD_cons_succ]
        exact List.mem_cons_of_mem a h
      · right
        rw [List.getD_cons_succ]
        exact h

/-- Claim C2: whenever the classifier output on the aligned single-row
frame is a matrix of class probabilities, the returned `delay_proba` lies
in the closed interval `[0, 1]`. -/
theorem predict_delay_proba_in_unit_interval (md : ModelData)
    (r : FlightInformation)
    (h : IsProbMatrix (md.trained_model.predict_proba [alignRow md r])) :
    0 ≤ (predict md r).delay_proba ∧ (predict md r).delay_proba ≤ 1 := by
  have hred : (predict md r).delay_proba =
      matrixEntry (md.trained_model.predict_proba [alignRow md r]) 0 1 := rfl
  rw [hred]
  unfold matrixEntry
  rcases list_getD_mem_or_default
      (md.trained_model.predict_proba [alignRow md r]) 0 [] with hrow | hrow
  · rcases list_getD_mem_or_default
        ((md.trained_model.predict_proba [alignRow md r]).getD 0 []) 1 0 with
      hp | hp
    · exact h _ hrow _ hp
    · rw [hp]; exact ⟨le_refl 0, by norm_num⟩
  · rw [hrow]
    exact ⟨le_refl 0, by norm_num⟩

/-- Witness for C2 at the concrete bundle, whose classifier output `[[0, 1]]`
is a probability matrix. -/
theorem predict_delay_proba_in_unit_interval_witness :
    IsProbMatrix
      (sampleBundle.trained_model.predict_proba
        [alignRow sampleBundle sampleRecord]) ∧
    0 ≤ (predict sampleBundle sampleRecord).delay_proba ∧
    (predict sampleBundle sampleRecord).delay_proba ≤ 1 := by
  have hpm : IsProbMatrix
      (sampleBundle.trained_model.predict_proba
        [alignRow sampleBundle sampleRecord]) := by
    intro row hrow p hp
    simp [sampleBundle, constClassifier] at hrow
    subst hrow
    simp at hp
    rcases hp with hp | hp <;> rw [hp] <;> exact ⟨by norm_num, by norm_num⟩
  exact ⟨hpm, predict_delay_proba_in_unit_interval sampleBundle sampleRecord hpm⟩

theorem validateField_ok_isSome {α : Type} {body : Payload} {k : String}
    {c : JsonValue → Option α} {a : α} (h : validateField body k c = .ok a) :
    (lookupField body k).isSome := by
  unfold validateField at h
  cases hl : lookupField body k with
  | none => simp [hl] at h
  | some v => rfl

theorem success_requires_all_fields (md : ModelData) (body : Payload)
    (out : PredictionOut) (h : handlePredictRequest md body = .success out) :
    (lookupField body "DIA").isSome ∧ (lookupField body "MES").isSome ∧
    (lookupField body "DIANOM").isSome ∧
    (lookupField body "TIPOVUELO").isSome ∧
    (lookupField body "OPERA").isSome ∧
    (lookupField body "SIGLADES").isSome ∧
    (lookupField body "TEMPORADAALTA").isSome ∧
    (lookupField body "PERIODODIA").isSome := by
  have hv : ∃ r, validateFlightInformation body = .ok r := by
    cases hv : validateFlightInformation body with
    | error e => simp [handlePredictRequest, hv] at h
    | ok r => exact ⟨r, rfl⟩
  obtain ⟨r, hv⟩ := hv
  unfold validateFlightInformation at hv
  cases h1 : validateField body "DIA" coerceInt with
  | error e => simp [h1, Bind.bind, Except.bind] at hv
  | ok a1 =>
  cases h2 : validateField body "MES" coerceInt with
  | error e => simp [h1, h2, Bind.bind, Except.bind] at hv
  | ok a2 =>
  cases h3 : validateField body "DIANOM" coerceStr with
  | error e => simp [h1, h2, h3, Bind.bind, Except.bind] at hv
  | ok a3 =>
  cases h4 : validateField body "TIPOVUELO" coerceStr with
  | error e => simp [h1, h2, h3, h4, Bind.bind, Except.bind] at hv
  | ok a4 =>
  cases h5 : validateField body "OPERA" coerceStr with
  | error e => simp [h1, h2, h3, h4, h5, Bind.bind, Except.bind] at hv
  | ok a5 =>
  cases h6 : validateField body "SIGLADES" coerceStr with
  | error e => simp [h1, h2, h3, h4, h5, h6, Bind.bind, Except.bind] at hv
  | ok a6 =>
  cases h7 : validateField body "TEMPORADAALTA" coerceInt with
  | error e => simp [h1, h2, h3, h4, h5, h6, h7, Bind.bind, Except.bind] at hv
  | ok a7 =>
  cases h8 : validateField body "PERIODODIA" coerceStr with
  | error e => simp [h1, h2, h3, h4, h5, h6, h7, h8, Bind.bind, Except.bind] at hv
  | ok a8 =>
  exact ⟨validateField_ok_isSome h1, validateField_ok_isSome h2,
    validateField_ok_isSome h3, validateField_ok_isSome h4,
    validateField_ok_isSome h5, validateField_ok_isSome h6,
    validateField_ok_isSome h7, validateField_ok_isSome h8⟩

/-- Claim C6: a body missing at least one of the eight required fields is
rejected with a schema-validation error, and no probability is computed or
returned for it. -/
theorem missing_required_field_rejected (md : ModelData) (body : Payload)
    (h : lookupField body "DIA" = none ∨ lookupField body "MES" = none ∨
         lookupField body "DIANOM" = none ∨
         lookupField body "TIPOVUELO" = none ∨
         lookupField body "OPERA" = none ∨
         lookupField body "SIGLADES" = none ∨
         lookupField body "TEMPORADAALTA" = none ∨
         lookupField body "PERIODODIA" = none) :
    (∃ msg, handlePredictRequest md body = .validationError msg) ∧
    ∀ out, handlePredictRequest md body ≠ .success out := by
  have hns : ∀ out, handlePredictRequest md body ≠ .success out := by
    intro out hc
    have hall := success_requires_all_fields md body out hc
    rcases h with h | h | h | h | h | h | h | h <;> rw [h] at hall <;>
      simp at hall
  refine ⟨?_, hns⟩
  cases hh : handlePredictRequest md body with
  | success out => exact absurd hh (hns out)
  | validationError msg => exact ⟨msg, rfl⟩

/-- A body identical to `sampleBody` except that the required field `DIA`
is absent. -/
def missingFieldBody : Payload :=
  [("MES", .num 9), ("DIANOM", .str "Miercoles"), ("TIPOVUELO", .str "N"),
   ("OPERA", .str "Grupo LATAM"), ("SIGLADES", .str "Arica"),
   ("TEMPORADAALTA", .num 1), ("PERIODODIA", .str "noche")]

/-- Witness for C6 at a concrete body with the `DIA` field absent. -/
theorem missing_required_field_rejected_witness :
    (∃ msg, handlePredictRequest sampleBundle missingFieldBody =
      .validationError msg) ∧
    ∀ out, handlePredictRequest sampleBundle missingFieldBody ≠
      .success out :=
  missing_required_field_rejected sampleBundle missingFieldBody (Or.inl rfl)

theorem lookupField_append_single (body : Payload) (k k2 : String)
    (v : JsonValue) (h : k2 ≠ k) :
    lookupField (body ++ [(k, v)]) k2 = lookupField body k2 := by
  induction body with
  | nil =>
    have hk : decide (k = k2) = false :=
      decide_eq_false (fun hc => h hc.symm)
    simp [lookupField, List.find?, hk]
  | cons p t ih =>
    cases hp : decide (p.1 = k2) with
    | true => simp [lookupField, List.cons_append, List.find?, hp]
    | false =>
      simp only [lookupField, List.cons_append, List.find?, hp] at ih ⊢
      exact ih

theorem validateField_append_single {α : Type} (body : Payload)
    (k k2 : String) (v : JsonValue) (c : JsonValue → Option α)
    (h : k2 ≠ k) :
    validateField (body ++ [(k, v)]) k2 c = validateField body k2 c := by
  unfold validateField
  rw [lookupField_append_single body k k2 v h]

/-- A body made of the eight fields of the load-test record plus one extra
field not declared by the schema. -/
def extraFieldBody : Payload :=
  sampleBody ++ [("EXTRA", JsonValue.num 7)]

/-- Counterexample for C7: a body holding the eight required fields plus an
additional field passes schema validation and yields a computed
probability, instead of the validation failure the claim states. -/
theorem extra_field_accepted_cex :
    validateFlightInformation extraFieldBody = .ok sampleRecord ∧
    handlePredictRequest sampleBundle extraFieldBody =
      .success (predict sampleBundle sampleRecord) := by
  exact ⟨rfl, by decide⟩

/-- Claim C7 as amended: a field whose name is not among the eight declared
field names is ignored by schema validation (pydantic default), so adding
it to any body changes neither the validation outcome nor the response. -/
theorem extra_field_ignored (md : ModelData) (body : Payload) (k : String)
    (v : JsonValue) (hk : k ∉ requiredFieldNames) :
    validateFlightInformation (body ++ [(k, v)]) =
      validateFlightInformation body ∧
    handlePredictRequest md (body ++ [(k, v)]) =
      handlePredictRequest md body := by
  simp only [requiredFieldNames, List.mem_cons, List.not_mem_nil, or_false,
    not_or] at hk
  obtain ⟨h1, h2, h3, h4, h5, h6, h7, h8⟩ := hk
  have hv : validateFlightInformation (body ++ [(k, v)]) =
      validateFlightInformation body := by
    unfold validateFlightInformation
    rw [validateField_append_single body k "DIA" v coerceInt (Ne.symm h1),
      validateField_append_single body k "MES" v coerceInt (Ne.symm h2),
      validateField_append_single body k "DIANOM" v coerceStr (Ne.symm h3),
      validateField_append_single body k "TIPOVUELO" v coerceStr (Ne.symm h4),
      validateField_append_single body k "OPERA" v coerceStr (Ne.symm h5),
      validateField_append_single body k "SIGLADES" v coerceStr (Ne.symm h6),
      validateField_append_single body k "TEMPORADAALTA" v coerceInt
        (Ne.symm h7),
      validateField_append_single body k "PERIODODIA" v coerceStr
        (Ne.symm h8)]
  exact ⟨hv, by simp [handlePredictRequest, hv]⟩

/-- Witness for the amended C7 at the load-test body and a concrete extra
field. -/
theorem extra_field_ignored_witness :
    validateFlightInformation (sampleBody ++ [("EXTRA", JsonValue.num 7)]) =
      validateFlightInformation sampleBody ∧
    handlePredictRequest sampleBundle
        (sampleBody ++ [("EXTRA", JsonValue.num 7)]) =
      handlePredictRequest sampleBundle sampleBody :=
  extra_field_ignored sampleBundle sampleBody "EXTRA" (JsonValue.num 7)
    (by decide)

/-- A body giving the three integer fields of the record as numeric JSON
strings. -/
def coercedBody : Payload :=
  [("DIA", .str "13"), ("MES", .str "9"), ("DIANOM", .str "Miercoles"),
   ("TIPOVUELO", .str "N"), ("OPERA", .str "Grupo LATAM"),
   ("SIGLADES", .str "Arica"), ("TEMPORADAALTA", .str "1"),
   ("PERIODODIA", .str "noche")]

/-- Claim C10: schema validation coerces rather than strictly type-checks:
a body whose integer fields are numeric JSON strings passes validation,
and the handler proceeds with the coerced integer values. -/
theorem coercible_string_ints_accepted :
    validateFlightInformation coercedBody = .ok sampleRecord ∧
    sampleRecord.DIA = 13 ∧ sampleRecord.MES = 9 ∧
    sampleRecord.TEMPORADAALTA = 1 ∧
    handlePredictRequest sampleBundle coercedBody =
      .success (predict sampleBundle sampleRecord) :=
  ⟨rfl, rfl, rfl, rfl, by decide⟩
